import Mathlib

/-!
Shallow embedding of the kernel core of this repository:
`src/kernel/task_manager.rs`, `src/helper.rs`, `src/system/resource.rs`,
`src/kernel/message.rs`.

Conventions of the embedding:
* `u32` values are `Nat`; every mask produced by the program is `< 2 ^ 32`
  and the bitwise operations used by the source (`|`, `&`, `!`, `<<`) are
  mapped to `|||`, `&&&`, `Nat.ldiff`/complement-within-mask and `<<<`.
* Global mutable state becomes explicit state passing: each kernel routine
  takes the state and returns the updated state together with its result.
* The hardware register at address 0xE000ED04 (ICSR) is modelled as the
  `icsr` field of the state; the pointer `ptr_HT` (which the source sets to
  the address of a TCB slot) is modelled as the index of that slot.
* `execute_critical`/`critical_section` only disable interrupts; in this
  sequential model they are identity wrappers and are dropped.
-/

/-- `MAX_TASKS` lives in `config.rs`, which is not under `src/`.
Modelled from the spec: §6 bounds it by 32 and §8 fixes `MAX_TASKS = 32`. -/
def MAX_TASKS : Nat := 32

/-- `MAX_STACK_SIZE` lives in `config.rs`, which is not under `src/`.
Modelled from the spec: §6 only says it is a word count; any value that can
hold the 32-word initial frame works, none of the claims depend on it. -/
def MAX_STACK_SIZE : Nat := 64

/-- Error kinds, from `errors.rs` (not under `src/`).
Modelled from the spec: §7 lists exactly these recoverable kinds; the
variants are also the ones named at the use sites in `src/`. -/
inductive KernelError where
  | DoesNotExist
  | StackTooSmall
  | AccessDenied
  | LimitExceeded
  | StackEmpty
  | CeilingViolation
deriving DecidableEq, Repr

/-- `TaskControlBlock` from `task_manager.rs`: the saved stack pointer. -/
structure TaskControlBlock where
  sp : Nat
deriving DecidableEq, Repr

/-- The `TaskManager` global of `task_manager.rs`, plus the ICSR hardware
register (address 0xE000ED04) folded into the state.  `ptr_HT` holds the
slot index whose TCB the source's pointer designates. -/
structure TaskManager where
  ptr_RT : Nat
  ptr_HT : Nat
  RT : Nat
  is_running : Bool
  threads : Nat → Option TaskControlBlock
  BTV : Nat
  ATV : Nat
  is_preemptive : Bool
  icsr : Nat

/-- The `u32` operation `x & !y`.  The bits common to `x` and `y` form a
sub-mask of `x`, so subtracting them clears exactly those bits; this form
(rather than `Nat.ldiff`) evaluates inside the kernel.  The equality with
`Nat.ldiff` is proved as `and_not_eq_ldiff` below. -/
def and_not (x y : Nat) : Nat := x - (x &&& y)

/-- `get_msb` from `helper.rs`, literally: the loop variable `i` runs from
`MAX_TASKS - 1` down to `0`, and the tested mask is `0 << i` because the
source initializes `mask = 0` and then shifts that zero. -/
def get_msb_loop (val : Nat) : Nat → Nat
  | 0 => 0
  | i + 1 =>
    if val &&& (0 <<< (i + 1)) = 0 <<< (i + 1) then i + 1
    else get_msb_loop val i

/-- `get_msb(val)` from `helper.rs`. -/
def get_msb (val : Nat) : Nat := get_msb_loop val (MAX_TASKS - 1)

/-- The descending scan of `get_HT` in `task_manager.rs`: for `i` from
`MAX_TASKS - 1` down to `1`, return the first `i` with `ATV & (1 << i) ==
(1 << i)` and `BTV & (1 << i) != (1 << i)`; `0` when the scan finds none. -/
def get_HT_loop (atv btv : Nat) : Nat → Nat
  | 0 => 0
  | i + 1 =>
    if atv &&& (1 <<< (i + 1)) = 1 <<< (i + 1) ∧
        ¬(btv &&& (1 <<< (i + 1)) = 1 <<< (i + 1)) then i + 1
    else get_HT_loop atv btv i

/-- `get_HT()` from `task_manager.rs`. -/
def get_HT (atv btv : Nat) : Nat := get_HT_loop atv btv (MAX_TASKS - 1)

/-- `preempt()` from `task_manager.rs`.  Note the source overwrites
`handler.RT` with `HT` before it checks that slot `HT` holds a TCB. -/
def preempt (k : TaskManager) : TaskManager × Except KernelError Unit :=
  if k.is_running then
    if k.RT ≠ get_HT k.ATV k.BTV then
      match k.threads (get_HT k.ATV k.BTV) with
      | some _ =>
        ({ k with
            RT := get_HT k.ATV k.BTV, ptr_HT := get_HT k.ATV k.BTV,
            icsr := k.icsr ||| 1 <<< 28 }, Except.ok ())
      | none =>
        ({ k with RT := get_HT k.ATV k.BTV }, Except.error KernelError.DoesNotExist)
    else (k, Except.ok ())
  else (k, Except.ok ())

/-- `release(tasks_mask)` from `task_manager.rs`: `ATV |= mask` then
`preempt()` with the result discarded. -/
def release (k : TaskManager) (tasks_mask : Nat) : TaskManager :=
  (preempt { k with ATV := k.ATV ||| tasks_mask }).1

/-- `block_tasks(tasks_mask)` from `task_manager.rs`: `BTV |= mask`. -/
def block_tasks (k : TaskManager) (tasks_mask : Nat) : TaskManager :=
  { k with BTV := k.BTV ||| tasks_mask }

/-- `unblock_tasks(tasks_mask)` from `task_manager.rs`: `BTV &= !mask`. -/
def unblock_tasks (k : TaskManager) (tasks_mask : Nat) : TaskManager :=
  { k with BTV := and_not k.BTV tasks_mask }

/-- `task_exit()` from `task_manager.rs`: clear the running task's bit in
`ATV`, then `preempt().unwrap()`. -/
def task_exit (k : TaskManager) : TaskManager :=
  let rt := k.RT
  (preempt { k with ATV := and_not k.ATV (1 <<< rt) }).1

/-- `insert_tcb(idx, tcb)` from `task_manager.rs`. -/
def insert_tcb (k : TaskManager) (idx : Nat) (tcb : TaskControlBlock) :
    TaskManager × Except KernelError Unit :=
  if idx ≥ MAX_TASKS then (k, Except.error KernelError.DoesNotExist)
  else ({ k with threads := fun j => if j = idx then some tcb else k.threads j },
    Except.ok ())

/-- Outcome of a Rust call that can also die with a runtime fault
(an out-of-bounds array index aborts instead of returning). -/
inductive RustOutcome (α : Type) where
  | ok (a : α)
  | err (e : KernelError)
  | fatal
deriving DecidableEq, Repr

/-- `create_tcb` from `task_manager.rs`, abstracted over the stack length:
fails with `StackTooSmall` when the stack cannot hold the 32-word initial
frame; otherwise lays out the frame and returns a TCB (the numeric stack
address is immaterial here and modelled as 0). -/
def create_tcb (stackLen : Nat) : Except KernelError TaskControlBlock :=
  if stackLen < 32 then Except.error KernelError.StackTooSmall
  else Except.ok ⟨0⟩

/-- `create_task(priority, handler_fn)` from `task_manager.rs`.  The very
first statement indexes `TASK_STACKS[priority]`, an array of length
`MAX_TASKS`; for `priority ≥ MAX_TASKS` that is an out-of-bounds panic
(`RustOutcome.fatal`) and `insert_tcb`'s own bound check is never reached. -/
def create_task (k : TaskManager) (priority : Nat) (_handler : Nat) :
    TaskManager × RustOutcome Unit :=
  if priority < MAX_TASKS then
    match create_tcb MAX_STACK_SIZE with
    | Except.error e => (k, RustOutcome.err e)
    | Except.ok tcb =>
      match insert_tcb k priority tcb with
      | (k1, Except.ok _) => (k1, RustOutcome.ok ())
      | (k1, Except.error e) => (k1, RustOutcome.err e)
  else (k, RustOutcome.fatal)

/-- `init(is_preemptive)` from `task_manager.rs` composed with its
`create_task(0, idle)` call: the initial global state (`ATV = 1`, `BTV = 0`,
`RT = 50`, not running) with the idle TCB in slot 0. -/
def init (is_preemptive : Bool) : TaskManager :=
  { ptr_RT := 0, ptr_HT := 0, RT := 50, is_running := false,
    threads := fun j => if j = 0 then some ⟨0⟩ else none,
    BTV := 0, ATV := 1, is_preemptive := is_preemptive, icsr := 0 }

/-- `h` is the index of the highest set bit of `v`, with the fallback to
`0` when `v` has no set bit above bit `0`. -/
def IsMsbIdx (v h : Nat) : Prop :=
  (∀ j, h < j → v.testBit j = false) ∧ (h ≠ 0 → v.testBit h = true)

-- ### Ceiling stack and resources (`src/system/resource.rs`)

/-- The ceiling stack of `pi_stack.rs`, which is not under `src/`.
Modelled from the spec: §4.4 — a bounded stack of task-priority values
whose `system_ceiling` is the top element, or −1 when the stack is empty;
`push_stack c` requires `c > system_ceiling` (else `CeilingViolation`) and
`pop_stack` requires a non-empty stack (else `StackEmpty`).  The depth
bound of `MAX_TASKS` is omitted: pushes are strictly increasing priorities
below `MAX_TASKS`, so the depth bound can never be hit. -/
structure PiStack where
  stack : List Nat
deriving DecidableEq, Repr

def PiStack.new : PiStack := ⟨[]⟩

def PiStack.system_ceiling (p : PiStack) : Int :=
  match p.stack with
  | [] => -1
  | c :: _ => (c : Int)

def PiStack.push_stack (p : PiStack) (c : Nat) : Except KernelError PiStack :=
  if (c : Int) > p.system_ceiling then Except.ok ⟨c :: p.stack⟩
  else Except.error KernelError.CeilingViolation

def PiStack.pop_stack (p : PiStack) : Except KernelError PiStack :=
  match p.stack with
  | [] => Except.error KernelError.StackEmpty
  | _ :: rest => Except.ok ⟨rest⟩

/-- `get_msb_const` of `utils/helpers.rs`, which is not under `src/`.
Modelled from the spec: §4.1 — the index of the highest set bit of a
32-bit value, `0` when the value is `0`, in a constant-evaluable form. -/
def get_msb_const_loop (v : Nat) : Nat → Nat
  | 0 => 0
  | i + 1 => if v &&& 1 <<< (i + 1) = 1 <<< (i + 1) then i + 1
             else get_msb_const_loop v i

def get_msb_const (v : Nat) : Nat := get_msb_const_loop v (MAX_TASKS - 1)

/-- `Resource` from `resource.rs`; the payload is immaterial to the claims
and is modelled as a `Nat`. -/
structure Resource where
  ceiling : Nat
  tasks_mask : Nat
  blocked_mask : Nat
  inner : Nat
deriving DecidableEq, Repr

/-- `Resource::new(val, tasks_mask)` from `resource.rs`: forces bit 0 into
the mask and computes the ceiling as its most significant bit. -/
def Resource.new (val : Nat) (tasks_mask : Nat) : Resource :=
  { inner := val, tasks_mask := tasks_mask ||| 1, blocked_mask := 0,
    ceiling := get_msb_const (tasks_mask ||| 1) }

/-- `Resource::lock` from `resource.rs`.  `get_curr_tid()` is the running
task `k.RT`.  On success it records in the resource's `blocked_mask` the
tasks newly blocked by this lock (`tasks_mask & !BTV`) and blocks every
task of `tasks_mask` except the caller (`block_tasks(!(1 << curr) &
tasks_mask)`). -/
def Resource.lock (r : Resource) (k : TaskManager) (pi : PiStack) :
    (Resource × TaskManager × PiStack) × Except KernelError Nat :=
  if r.tasks_mask &&& 1 <<< k.RT = 1 <<< k.RT then
    if (r.ceiling : Int) > pi.system_ceiling then
      match pi.push_stack r.ceiling with
      | Except.error e => ((r, k, pi), Except.error e)
      | Except.ok pi1 =>
        (({ r with blocked_mask := and_not r.tasks_mask k.BTV },
          block_tasks k (and_not r.tasks_mask (1 <<< k.RT)), pi1),
          Except.ok r.inner)
    else ((r, k, pi), Except.error KernelError.AccessDenied)
  else ((r, k, pi), Except.error KernelError.AccessDenied)

/-- `Resource::unlock` from `resource.rs`: when this resource's ceiling is
the current system ceiling, pop the stack, unblock exactly the recorded
tasks and call the scheduler (`schedule` = `preempt`, result discarded);
otherwise silently do nothing. -/
def Resource.unlock (r : Resource) (k : TaskManager) (pi : PiStack) :
    (Resource × TaskManager × PiStack) × Except KernelError Unit :=
  if (r.ceiling : Int) = pi.system_ceiling then
    match pi.pop_stack with
    | Except.error e => ((r, k, pi), Except.error e)
    | Except.ok pi1 =>
      ((r, (preempt (unblock_tasks k r.blocked_mask)).1, pi1), Except.ok ())
  else ((r, k, pi), Except.ok ())

-- ### Messaging (`src/kernel/message.rs`)

/-- One message channel of the messaging manager.
Modelled from the spec: §3 — `notify_mask`, `receivers_mask` and
`pending_mask` per channel. -/
structure Channel where
  notify_mask : Nat
  receivers_mask : Nat
  pending_mask : Nat
deriving DecidableEq, Repr

/-- The `MessagingManager` of `internals/messaging.rs`, which is not under
`src/`.  Modelled from the spec: §4.6 — channels indexed by `MessageId`. -/
structure MessagingManager where
  channels : List Channel
deriving DecidableEq, Repr

/-- `MessagingManager::broadcast(msg_id)`.
Modelled from the spec: §4.6 — re-arm `pending_mask = receivers_mask` and
return `notify_mask`; fail with `DoesNotExist` when the id is unknown. -/
def MessagingManager.broadcast (mm : MessagingManager) (id : Nat) :
    MessagingManager × Except KernelError Nat :=
  match mm.channels.get? id with
  | none => (mm, Except.error KernelError.DoesNotExist)
  | some ch =>
    (⟨mm.channels.set id { ch with pending_mask := ch.receivers_mask }⟩,
      Except.ok ch.notify_mask)

/-- `Message` from `message.rs`: the single-slot payload and the id. -/
structure Message (T : Type) where
  inner : T
  id : Nat

/-- `Message::broadcast(msg)` from `message.rs`: replace the stored payload
first when one is provided, then consult the messaging manager (its error
propagates via `?`), and finally `release` the returned notify mask. -/
def Message.broadcast {T : Type} (m : Message T) (msg : Option T)
    (mm : MessagingManager) (k : TaskManager) :
    (Message T × MessagingManager × TaskManager) × Except KernelError Unit :=
  let m1 := match msg with
    | some p => { m with inner := p }
    | none => m
  match MessagingManager.broadcast mm m.id with
  | (mm1, Except.error e) => ((m1, mm1, k), Except.error e)
  | (mm1, Except.ok mask) => ((m1, mm1, release k mask), Except.ok ())

-- ### Concrete states and resources used by witnesses and counterexamples

/-- A throwaway concrete task-manager state. -/
def kEmpty : TaskManager :=
  { ptr_RT := 0, ptr_HT := 0, RT := 0, is_running := true,
    threads := fun _ => none, BTV := 0, ATV := 1,
    is_preemptive := true, icsr := 0 }

/-- A concrete state for the C9 witness: task 1 is runnable but slot 1 was
never created. -/
def kNoTCB : TaskManager :=
  { ptr_RT := 0, ptr_HT := 0, RT := 0, is_running := true,
    threads := fun _ => none, BTV := 0, ATV := 3,
    is_preemptive := true, icsr := 0 }

/-- A concrete state for the C1 witness: tasks 0 and 2 are runnable with
TCBs present, task 0 is running, so `preempt` switches to task 2 and pends
the context-switch exception. -/
def kTwoTasks : TaskManager :=
  { ptr_RT := 0, ptr_HT := 0, RT := 0, is_running := true,
    threads := fun j => if j ≤ 2 then some ⟨0⟩ else none, BTV := 0, ATV := 5,
    is_preemptive := true, icsr := 0 }

/-- A state in which task 2 runs; it is outside `rC7.tasks_mask = 0b11`,
so its lock attempt is denied (C5 witness). -/
def kRT2 : TaskManager :=
  { ptr_RT := 0, ptr_HT := 0, RT := 2, is_running := true,
    threads := fun _ => none, BTV := 0, ATV := 5,
    is_preemptive := true, icsr := 0 }

/-- Concrete data for the C5 and C7 witnesses: a resource accessible to
tasks 0 and 1 (mask `0b11` after bit 0 is forced on, ceiling 1). -/
def rC7 : Resource := Resource.new 0 2

/-- Concrete data for the C4 witness: task 1 running, so that the lock of
`rC4` (tasks 0 and 1, ceiling 1) succeeds on the empty ceiling stack. -/
def kRT1 : TaskManager :=
  { ptr_RT := 0, ptr_HT := 0, RT := 1, is_running := true,
    threads := fun j => if j ≤ 1 then some ⟨0⟩ else none, BTV := 0, ATV := 3,
    is_preemptive := true, icsr := 0 }

def rC4 : Resource := Resource.new 7 2

/-- Concrete data for the C10 witness: a message whose id 0 is unknown to
an empty messaging manager. -/
def mC10 : Message Nat := { inner := 3, id := 0 }

/-- One kernel operation, as a transition on the combined task-manager and
ceiling-stack state: task creation, `start_kernel`, `release`,
`Resource::lock` and `Resource::unlock` (which are the only users of
`block_tasks`/`unblock_tasks`), `task_exit` and message broadcast (whose
whole effect on this state is the `release` of the notify mask).  The lock
and unlock steps range over an arbitrary resource, an over-approximation
of the resources the application actually created.  The exit step carries
`RT ≠ 0`: `task_exit` must be called from the exiting task itself and the
idle task's body is an infinite wait-for-event loop that never calls it. -/
inductive Step : TaskManager × PiStack → TaskManager × PiStack → Prop where
  | create (k : TaskManager) (pi : PiStack) (p : Nat) (tcb : TaskControlBlock) :
      p < MAX_TASKS → Step (k, pi) ((insert_tcb k p tcb).1, pi)
  | start (k : TaskManager) (pi : PiStack) :
      Step (k, pi) ((preempt { k with is_running := true }).1, pi)
  | releaseStep (k : TaskManager) (pi : PiStack) (m : Nat) :
      Step (k, pi) (release k m, pi)
  | lockStep (k : TaskManager) (pi : PiStack) (r : Resource) :
      Step (k, pi) ((Resource.lock r k pi).1.2.1, (Resource.lock r k pi).1.2.2)
  | unlockStep (k : TaskManager) (pi : PiStack) (r : Resource) :
      Step (k, pi) ((Resource.unlock r k pi).1.2.1, (Resource.unlock r k pi).1.2.2)
  | exitStep (k : TaskManager) (pi : PiStack) :
      k.RT ≠ 0 → Step (k, pi) (task_exit k, pi)
  | broadcastStep (k : TaskManager) (pi : PiStack) (m : Nat) :
      Step (k, pi) (release k m, pi)

/-- The states reachable from `init` by the kernel operations. -/
inductive Reachable : TaskManager × PiStack → Prop where
  | boot (pre : Bool) : Reachable (init pre, PiStack.new)
  | step (s s' : TaskManager × PiStack) :
      Reachable s → Step s s' → Reachable s'

/-- The trace refuting claim C2: boot, create task 1, start, release task
1, and let task 1 lock the resource `Resource::new(0, 0b10)` (whose
`tasks_mask` is `0b11` after bit 0 is forced on). -/
def cex0 : TaskManager × PiStack := (init false, PiStack.new)

def cex1 : TaskManager × PiStack := ((insert_tcb cex0.1 1 ⟨0⟩).1, cex0.2)

def cex2 : TaskManager × PiStack :=
  ((preempt { cex1.1 with is_running := true }).1, cex1.2)

def cex3 : TaskManager × PiStack := (release cex2.1 2, cex2.2)

def rCex : Resource := Resource.new 0 2

def cex4 : TaskManager × PiStack :=
  ((Resource.lock rCex cex3.1 cex3.2).1.2.1, (Resource.lock rCex cex3.1 cex3.2).1.2.2)

def cex5 : TaskManager × PiStack := (task_exit cex4.1, cex4.2)

-- ### Bitwise bridging lemmas

theorem zero_ldiff (y : Nat) : Nat.ldiff 0 y = 0 :=
  Nat.eq_of_testBit_eq fun i => by rw [Nat.testBit_ldiff]; simp

/-- `and_not` computes `Nat.ldiff`: subtracting the common bits of `x` and
`y` from `x` is the bitwise `x AND NOT y`. -/
theorem and_not_eq_ldiff (x y : Nat) : and_not x y = Nat.ldiff x y := by
  rw [and_not]
  induction x using Nat.binaryRec generalizing y with
  | z => rw [Nat.zero_and, zero_ldiff]
  | f b n ih =>
    rw [← Nat.bit_decomp y, Nat.land_bit, Nat.ldiff_bit]
    have ha : n &&& y.div2 ≤ n := Nat.and_le_left
    have hi := ih y.div2
    cases b <;> cases y.bodd <;>
      simp only [Nat.bit_val, Bool.toNat_false, Bool.toNat_true, Bool.and_self,
        Bool.and_false, Bool.and_true, Bool.not_false, Bool.not_true,
        Bool.false_and, Bool.true_and, Bool.and_not_self] <;>
      omega

theorem and_pow_eq_testBit (a i : Nat) :
    (a &&& 1 <<< i = 1 <<< i) ↔ a.testBit i = true := by
  rw [Nat.one_shiftLeft, Nat.and_two_pow]
  cases h : a.testBit i
  · simp only [Bool.toNat_false, Nat.zero_mul]
    constructor
    · intro h0
      exact absurd h0.symm (Nat.two_pow_pos i).ne'
    · intro h1
      exact Bool.noConfusion h1
  · simp

theorem get_HT_cond_iff (atv btv i : Nat) :
    ((atv &&& 1 <<< i = 1 <<< i) ∧ ¬(btv &&& 1 <<< i = 1 <<< i)) ↔
      (Nat.ldiff atv btv).testBit i = true := by
  rw [and_pow_eq_testBit, and_pow_eq_testBit, Nat.testBit_ldiff]
  cases h1 : atv.testBit i <;> cases h2 : btv.testBit i <;> simp

theorem get_HT_loop_none_above (atv btv : Nat) :
    ∀ i j, get_HT_loop atv btv i < j → j ≤ i →
      (Nat.ldiff atv btv).testBit j = false := by
  intro i
  induction i with
  | zero => intro j h1 h2; omega
  | succ n ih =>
    intro j h1 h2
    by_cases hc : atv &&& 1 <<< (n + 1) = 1 <<< (n + 1) ∧
        ¬(btv &&& 1 <<< (n + 1) = 1 <<< (n + 1))
    · rw [get_HT_loop, if_pos hc] at h1; omega
    · rw [get_HT_loop, if_neg hc] at h1
      rcases Nat.lt_or_ge j (n + 1) with hj | hj
      · exact ih j h1 (by omega)
      · have hj' : j = n + 1 := by omega
        subst hj'
        cases hb : (Nat.ldiff atv btv).testBit (n + 1)
        · rfl
        · exact absurd ((get_HT_cond_iff atv btv (n + 1)).mpr hb) hc

theorem get_HT_loop_bit (atv btv : Nat) :
    ∀ i, get_HT_loop atv btv i ≠ 0 →
      (Nat.ldiff atv btv).testBit (get_HT_loop atv btv i) = true := by
  intro i
  induction i with
  | zero => intro h; exact absurd rfl h
  | succ n ih =>
    intro h
    by_cases hc : atv &&& 1 <<< (n + 1) = 1 <<< (n + 1) ∧
        ¬(btv &&& 1 <<< (n + 1) = 1 <<< (n + 1))
    · rw [get_HT_loop, if_pos hc]
      exact (get_HT_cond_iff atv btv (n + 1)).mp hc
    · rw [get_HT_loop, if_neg hc] at h ⊢
      exact ih h

theorem get_HT_isMsb (atv btv : Nat) (h : atv < 2 ^ 32) :
    IsMsbIdx (Nat.ldiff atv btv) (get_HT atv btv) := by
  constructor
  · intro j hj
    rcases Nat.lt_or_ge j 32 with hj32 | hj32
    · exact get_HT_loop_none_above atv btv 31 j hj (by omega)
    · rw [Nat.testBit_ldiff]
      have : atv.testBit j = false :=
        Nat.testBit_lt_two_pow
          (lt_of_lt_of_le h (Nat.pow_le_pow_right (by omega) hj32))
      simp [this]
  · exact get_HT_loop_bit atv btv 31

-- ### Frame lemmas for `preempt` and its callers

theorem preempt_fst_ATV (k : TaskManager) : (preempt k).1.ATV = k.ATV := by
  unfold preempt
  split
  · split
    · split <;> rfl
    · rfl
  · rfl

theorem preempt_fst_BTV (k : TaskManager) : (preempt k).1.BTV = k.BTV := by
  unfold preempt
  split
  · split
    · split <;> rfl
    · rfl
  · rfl

theorem release_ATV (k : TaskManager) (m : Nat) :
    (release k m).ATV = k.ATV ||| m := by
  unfold release; rw [preempt_fst_ATV]

theorem task_exit_ATV (k : TaskManager) :
    (task_exit k).ATV = Nat.ldiff k.ATV (1 <<< k.RT) := by
  unfold task_exit
  rw [preempt_fst_ATV]
  exact and_not_eq_ldiff k.ATV (1 <<< k.RT)

-- ### Claim C3: `get_msb`

/-- The `get_msb` scan never shifts its mask (the source shifts the
constant `0`), so every iteration's test `val & 0 == 0` succeeds and the
first iteration returns `MAX_TASKS - 1 = 31`, whatever the input. -/
theorem get_msb_loop_const (val : Nat) (i : Nat) :
    get_msb_loop val (i + 1) = i + 1 := by
  rw [get_msb_loop, if_pos]
  simp

/-- Claim C3: the claim reads `get_msb(v)` as the index of the highest set
bit of `v` (`0` when `v = 0`).  The code instead returns `31` for every
input: at `v = 1` the highest set bit has index `0` but `get_msb 1 = 31`,
and `get_msb 0 = 31 ≠ 0`; `v = 2` (highest set bit `1`) gives `31` too. -/
theorem get_msb_returns_31 :
    get_msb 1 = 31 ∧ get_msb 0 = 31 ∧ get_msb 2 = 31 :=
  ⟨get_msb_loop_const 1 30, get_msb_loop_const 0 30, get_msb_loop_const 2 30⟩

-- ### Claim C6: `create_task` with an out-of-range priority

/-- Claim C6: at `priority = MAX_TASKS = 32` the claim expects the
`DoesNotExist` error and no panic.  The code indexes
`TASK_STACKS[priority]` before any check, which is an out-of-bounds panic
(`RustOutcome.fatal`); the `DoesNotExist` guard inside `insert_tcb` —
which is what the claim and spec describe — is never reached. -/
theorem create_task_oob_panics :
    create_task kEmpty 32 0 = (kEmpty, RustOutcome.fatal) ∧
      insert_tcb kEmpty 32 ⟨0⟩ = (kEmpty, Except.error KernelError.DoesNotExist) := by
  constructor <;> rfl

-- ### Claim C9: `preempt` mutates `RT` on its error path

/-- Claim C9: when the selected highest-priority runnable slot has no TCB,
`preempt` has already overwritten the running-task index `RT` with that
slot before it returns `DoesNotExist`: the returned state is the input
state with `RT` replaced, so the scheduler state is mutated on error. -/
theorem preempt_error_mutates_RT (k : TaskManager)
    (hrun : k.is_running = true)
    (hne : get_HT k.ATV k.BTV ≠ k.RT)
    (hnone : k.threads (get_HT k.ATV k.BTV) = none) :
    preempt k = ({ k with RT := get_HT k.ATV k.BTV },
      Except.error KernelError.DoesNotExist) := by
  rw [preempt, if_pos hrun, if_pos (Ne.symm hne), hnone]

theorem preempt_error_mutates_RT_witness :
    preempt kNoTCB = ({ kNoTCB with RT := 1 },
      Except.error KernelError.DoesNotExist) :=
  preempt_error_mutates_RT kNoTCB rfl (by decide) rfl

-- ### Claim C1: the scheduling decision of `preempt`

/-- Claim C1: in a running state, `preempt` selects
`h = get_HT ATV BTV`, which is the true most significant set bit of
`runnable = ATV & !BTV` (with fallback `0` when no task in `1..MAX_TASKS`
is runnable — `IsMsbIdx`); when `h` equals the running task nothing
happens; when it differs and slot `h` has a TCB, the next-task pointer is
set to slot `h` and bit 28 of the ICSR register at 0xE000ED04 is set; when
slot `h` has no TCB the call returns `DoesNotExist`. -/
theorem preempt_selects_msb (k : TaskManager)
    (hrun : k.is_running = true) (hatv : k.ATV < 2 ^ 32) :
    IsMsbIdx (Nat.ldiff k.ATV k.BTV) (get_HT k.ATV k.BTV) ∧
    (get_HT k.ATV k.BTV = k.RT → preempt k = (k, Except.ok ())) ∧
    (∀ tcb, get_HT k.ATV k.BTV ≠ k.RT →
      k.threads (get_HT k.ATV k.BTV) = some tcb →
      preempt k = ({ k with
        RT := get_HT k.ATV k.BTV, ptr_HT := get_HT k.ATV k.BTV,
        icsr := k.icsr ||| 1 <<< 28 }, Except.ok ())) ∧
    (get_HT k.ATV k.BTV ≠ k.RT → k.threads (get_HT k.ATV k.BTV) = none →
      preempt k = ({ k with RT := get_HT k.ATV k.BTV },
        Except.error KernelError.DoesNotExist)) := by
  refine ⟨get_HT_isMsb k.ATV k.BTV hatv, ?_, ?_, ?_⟩
  · intro heq
    rw [preempt, if_pos hrun, if_neg]
    intro hne
    exact hne heq.symm
  · intro tcb hne hsome
    rw [preempt, if_pos hrun, if_pos (Ne.symm hne), hsome]
  · intro hne hnone
    rw [preempt, if_pos hrun, if_pos (Ne.symm hne), hnone]

theorem preempt_selects_msb_witness :
    preempt kTwoTasks = ({ kTwoTasks with
      RT := 2, ptr_HT := 2, icsr := 1 <<< 28 }, Except.ok ()) :=
  (preempt_selects_msb kTwoTasks rfl (by decide)).2.2.1 ⟨0⟩ (by decide) rfl

-- ### Claim C5: `lock` failure condition and failure framing

/-- Claim C5: `Resource::lock` (and hence `acquire`, whose first step is
`lock`) fails with `AccessDenied` exactly when the current task's bit is
missing from `tasks_mask` or `ceiling ≤ system_ceiling`; on such a failure
the resource (including its recorded `blocked_mask`), the task-manager
masks and the ceiling stack are returned unchanged. -/
theorem lock_access_denied_iff (r : Resource) (k : TaskManager) (pi : PiStack) :
    ((Resource.lock r k pi).2 = Except.error KernelError.AccessDenied ↔
      (¬(r.tasks_mask &&& 1 <<< k.RT = 1 <<< k.RT) ∨
        (r.ceiling : Int) ≤ pi.system_ceiling)) ∧
    ((Resource.lock r k pi).2 = Except.error KernelError.AccessDenied →
      (Resource.lock r k pi).1 = (r, k, pi)) := by
  by_cases h1 : r.tasks_mask &&& 1 <<< k.RT = 1 <<< k.RT
  · by_cases h2 : (r.ceiling : Int) > pi.system_ceiling
    · rw [Resource.lock, if_pos h1, if_pos h2, PiStack.push_stack, if_pos h2]
      constructor
      · simp only []
        constructor
        · intro h; exact absurd h (by simp)
        · intro h
          rcases h with h | h
          · exact absurd h1 h
          · exact absurd h2 (not_lt.mpr h)
      · intro h; exact absurd h (by simp)
    · rw [Resource.lock, if_pos h1, if_neg h2]
      exact ⟨⟨fun _ => Or.inr (not_lt.mp h2), fun _ => rfl⟩, fun _ => rfl⟩
  · rw [Resource.lock, if_neg h1]
    exact ⟨⟨fun _ => Or.inl h1, fun _ => rfl⟩, fun _ => rfl⟩

theorem lock_access_denied_iff_witness :
    (Resource.lock rC7 kRT2 PiStack.new).2 = Except.error KernelError.AccessDenied :=
  (lock_access_denied_iff rC7 kRT2 PiStack.new).1.mpr (Or.inl (by decide))

-- ### Claim C7: `unlock` with a mismatched ceiling is a silent no-op

/-- Claim C7: when this resource's ceiling differs from the current system
ceiling, `Resource::unlock` returns success and leaves the resource, every
task-manager field (so in particular `active_mask` and `blocked_mask`) and
the ceiling stack untouched; in particular the scheduler is not invoked. -/
theorem unlock_ceiling_mismatch_noop (r : Resource) (k : TaskManager)
    (pi : PiStack) (h : (r.ceiling : Int) ≠ pi.system_ceiling) :
    Resource.unlock r k pi = ((r, k, pi), Except.ok ()) := by
  rw [Resource.unlock, if_neg h]

theorem unlock_ceiling_mismatch_noop_witness :
    Resource.unlock rC7 kEmpty PiStack.new = ((rC7, kEmpty, PiStack.new), Except.ok ()) :=
  unlock_ceiling_mismatch_noop rC7 kEmpty PiStack.new (by decide)

-- ### Claim C4: lock–unlock round trip

/-- Undoing a lock restores the blocked mask: blocking
`tasks_mask & !(1 << curr)` and then unblocking the recorded
`tasks_mask & !BTV` gives back the original `BTV`, bit by bit. -/
theorem btv_lock_unlock_roundtrip (btv tm c : Nat) :
    Nat.ldiff (btv ||| Nat.ldiff tm (1 <<< c)) (Nat.ldiff tm btv) = btv := by
  apply Nat.eq_of_testBit_eq
  intro j
  simp only [Nat.testBit_ldiff, Nat.testBit_lor]
  cases hb : btv.testBit j <;> cases ht : tm.testBit j <;>
    cases hp : (1 <<< c).testBit j <;> rfl

/-- Unlocking right after a successful push takes the active branch of
`unlock`: the pushed ceiling is the system ceiling, so the stack is popped,
the recorded tasks are unblocked and the scheduler runs. -/
theorem unlock_push_pop (r1 : Resource) (k1 : TaskManager) (s : List Nat) :
    Resource.unlock r1 k1 ⟨r1.ceiling :: s⟩ =
      ((r1, (preempt (unblock_tasks k1 r1.blocked_mask)).1, ⟨s⟩), Except.ok ()) := by
  rw [Resource.unlock, if_pos
    (show ((r1.ceiling : Int) = PiStack.system_ceiling ⟨r1.ceiling :: s⟩) from rfl)]
  rfl

/-- Claim C4: whenever `lock` succeeds, performing `lock` and then
`unlock` on the same resource (which is what `acquire` does) returns
`active_mask`, `blocked_mask` and the ceiling stack — hence also
`system_ceiling` — to their values immediately before the lock. -/
theorem lock_unlock_roundtrip (r : Resource) (k : TaskManager) (pi : PiStack)
    (hok : (Resource.lock r k pi).2 = Except.ok r.inner) :
    ((Resource.unlock (Resource.lock r k pi).1.1 (Resource.lock r k pi).1.2.1
        (Resource.lock r k pi).1.2.2).1.2.1.ATV = k.ATV) ∧
    ((Resource.unlock (Resource.lock r k pi).1.1 (Resource.lock r k pi).1.2.1
        (Resource.lock r k pi).1.2.2).1.2.1.BTV = k.BTV) ∧
    ((Resource.unlock (Resource.lock r k pi).1.1 (Resource.lock r k pi).1.2.1
        (Resource.lock r k pi).1.2.2).1.2.2 = pi) ∧
    ((Resource.unlock (Resource.lock r k pi).1.1 (Resource.lock r k pi).1.2.1
        (Resource.lock r k pi).1.2.2).1.2.2.system_ceiling = pi.system_ceiling) := by
  by_cases h1 : r.tasks_mask &&& 1 <<< k.RT = 1 <<< k.RT
  · by_cases h2 : (r.ceiling : Int) > pi.system_ceiling
    · have hpush : pi.push_stack r.ceiling = Except.ok ⟨r.ceiling :: pi.stack⟩ := by
        rw [PiStack.push_stack, if_pos h2]
      rw [Resource.lock, if_pos h1, if_pos h2, hpush]
      dsimp only
      rw [unlock_push_pop]
      refine ⟨?_, ?_, rfl, rfl⟩
      · rw [preempt_fst_ATV]
        rfl
      · rw [preempt_fst_BTV]
        simp only [unblock_tasks, block_tasks, and_not_eq_ldiff]
        exact btv_lock_unlock_roundtrip k.BTV r.tasks_mask k.RT
    · rw [Resource.lock, if_pos h1, if_neg h2] at hok
      exact absurd hok (by simp)
  · rw [Resource.lock, if_neg h1] at hok
    exact absurd hok (by simp)

theorem lock_unlock_roundtrip_witness :
    ((Resource.unlock (Resource.lock rC4 kRT1 PiStack.new).1.1
        (Resource.lock rC4 kRT1 PiStack.new).1.2.1
        (Resource.lock rC4 kRT1 PiStack.new).1.2.2).1.2.1.ATV = kRT1.ATV) ∧
    ((Resource.unlock (Resource.lock rC4 kRT1 PiStack.new).1.1
        (Resource.lock rC4 kRT1 PiStack.new).1.2.1
        (Resource.lock rC4 kRT1 PiStack.new).1.2.2).1.2.1.BTV = kRT1.BTV) ∧
    ((Resource.unlock (Resource.lock rC4 kRT1 PiStack.new).1.1
        (Resource.lock rC4 kRT1 PiStack.new).1.2.1
        (Resource.lock rC4 kRT1 PiStack.new).1.2.2).1.2.2 = PiStack.new) ∧
    ((Resource.unlock (Resource.lock rC4 kRT1 PiStack.new).1.1
        (Resource.lock rC4 kRT1 PiStack.new).1.2.1
        (Resource.lock rC4 kRT1 PiStack.new).1.2.2).1.2.2.system_ceiling =
      PiStack.new.system_ceiling) :=
  lock_unlock_roundtrip rC4 kRT1 PiStack.new rfl

-- ### Claim C10: `Message::broadcast` overwrites the payload before the
-- messaging manager can fail

/-- Claim C10: `Message::broadcast(Some(payload))` replaces the stored
payload before consulting the messaging manager, so when the manager's
broadcast fails with `DoesNotExist` the error is returned with the payload
already overwritten: the channel state is not left unchanged on error. -/
theorem broadcast_overwrites_before_error {T : Type} (m : Message T) (p : T)
    (mm : MessagingManager) (k : TaskManager)
    (herr : (MessagingManager.broadcast mm m.id).2 =
      Except.error KernelError.DoesNotExist) :
    ((Message.broadcast m (some p) mm k).1.1.inner = p) ∧
    ((Message.broadcast m (some p) mm k).2 =
      Except.error KernelError.DoesNotExist) ∧
    (p ≠ m.inner → (Message.broadcast m (some p) mm k).1.1 ≠ m) := by
  have hmm : MessagingManager.broadcast mm m.id =
      ((MessagingManager.broadcast mm m.id).1,
        Except.error KernelError.DoesNotExist) := by
    rw [← herr]
  rw [Message.broadcast, hmm]
  refine ⟨rfl, rfl, ?_⟩
  intro hne hcontra
  exact hne (congrArg Message.inner hcontra)

theorem broadcast_overwrites_before_error_witness :
    ((Message.broadcast mC10 (some 7) ⟨[]⟩ kEmpty).1.1.inner = 7) ∧
    ((Message.broadcast mC10 (some 7) ⟨[]⟩ kEmpty).2 =
      Except.error KernelError.DoesNotExist) ∧
    ((7 : Nat) ≠ mC10.inner → (Message.broadcast mC10 (some 7) ⟨[]⟩ kEmpty).1.1 ≠ mC10) :=
  broadcast_overwrites_before_error mC10 7 ⟨[]⟩ kEmpty rfl

-- ### Claim C8: release then task_exit

/-- Clearing one bit undoes an OR exactly when that bit was the only one
the OR added: if `m & !a = 1 << rt` then `(a | m) & !(1 << rt) = a`. -/
theorem ldiff_lor_cancel (a m rt : Nat) (h : Nat.ldiff m a = 1 <<< rt) :
    Nat.ldiff (a ||| m) (1 <<< rt) = a := by
  apply Nat.eq_of_testBit_eq
  intro j
  have hj : (Nat.ldiff m a).testBit j = (1 <<< rt).testBit j := by rw [h]
  rw [Nat.testBit_ldiff] at hj
  rw [Nat.testBit_ldiff, Nat.testBit_lor, ← hj]
  cases ha : a.testBit j <;> cases hm : m.testBit j <;> rfl

/-- Claim C8 does not hold as stated (see
`release_exit_not_roundtrip`): `task_exit` clears exactly the exiting
task's bit, so the round trip restores `active_mask` precisely when that
task is the **only** task `release(m)` newly activated — `m`'s bits
outside the pre-release `active_mask` are exactly the exiting task's bit
(in particular the exiting task was not active before the release). -/
theorem release_exit_roundtrip (k : TaskManager) (m : Nat)
    (h : Nat.ldiff m k.ATV = 1 <<< (release k m).RT) :
    (task_exit (release k m)).ATV = k.ATV := by
  rw [task_exit_ATV, release_ATV]
  exact ldiff_lor_cancel k.ATV m (release k m).RT h

theorem release_exit_roundtrip_witness :
    (task_exit (release kEmpty 2)).ATV = kEmpty.ATV :=
  release_exit_roundtrip kEmpty 2 (by rw [← and_not_eq_ldiff]; decide)

/-- Counterexample to claim C8 as stated: from `active_mask = 5` (tasks 0
and 2 active), `release 6` activates tasks 1 and 2 — wait, task 2 was
already active, so the newly activated task is task 1 only; the scheduler
picks task 2, which is "a task released by `m`" (bit 2 is in `m = 6`), and
its `task_exit` leaves `active_mask = 3 ≠ 5`: the round trip fails. -/
theorem release_exit_not_roundtrip :
    Nat.testBit 6 2 = true ∧ (release kTwoTasks 6).RT = 2 ∧
      (task_exit (release kTwoTasks 6)).ATV ≠ kTwoTasks.ATV :=
  ⟨by decide, by decide, by decide⟩

-- ### Claim C2: reachable states and bit 0 of the masks

theorem insert_fst_ATV (k : TaskManager) (p : Nat) (tcb : TaskControlBlock) :
    (insert_tcb k p tcb).1.ATV = k.ATV := by
  rw [insert_tcb]
  split <;> rfl

theorem lock_fst_ATV (r : Resource) (k : TaskManager) (pi : PiStack) :
    (Resource.lock r k pi).1.2.1.ATV = k.ATV := by
  rw [Resource.lock]
  split
  · split
    · split <;> rfl
    · rfl
  · rfl

theorem unlock_fst_ATV (r : Resource) (k : TaskManager) (pi : PiStack) :
    (Resource.unlock r k pi).1.2.1.ATV = k.ATV := by
  rw [Resource.unlock]
  split
  · split
    · rfl
    · dsimp only
      rw [preempt_fst_ATV]
      rfl
  · rfl

/-- Claim C2 does not hold as stated (see `runnable_bit0_counterexample`):
what does hold in every reachable state is that bit 0 is in `active_mask`
— the idle task is released at init, only `release` and `task_exit`
touch `active_mask`, and the idle task never exits.  Bit 0 of `runnable =
active_mask & !blocked_mask` is **not** invariant, because a resource lock
taken by a nonzero task blocks the idle task. -/
theorem reachable_ATV_bit0 (s : TaskManager × PiStack) (h : Reachable s) :
    Nat.testBit s.1.ATV 0 = true := by
  induction h with
  | boot pre => exact (by decide : Nat.testBit 1 0 = true)
  | step s s' hr hstep ih =>
    cases hstep with
    | create k pi p tcb hp =>
      rw [insert_fst_ATV]
      exact ih
    | start k pi =>
      rw [preempt_fst_ATV]
      exact ih
    | releaseStep k pi m =>
      rw [release_ATV, Nat.testBit_lor, ih]
      rfl
    | lockStep k pi r =>
      rw [lock_fst_ATV]
      exact ih
    | unlockStep k pi r =>
      rw [unlock_fst_ATV]
      exact ih
    | exitStep k pi hrt =>
      rw [task_exit_ATV, Nat.testBit_ldiff, ih, Nat.one_shiftLeft,
        Nat.testBit_two_pow]
      simp [hrt]
    | broadcastStep k pi m =>
      rw [release_ATV, Nat.testBit_lor, ih]
      rfl

theorem reachable_ATV_bit0_witness :
    Nat.testBit (init false, PiStack.new).1.ATV 0 = true :=
  reachable_ATV_bit0 (init false, PiStack.new) (Reachable.boot false)

/-- Counterexample to claim C2 as stated: the state `cex4`, reached from
init by kernel operations, has bit 0 **not** in `runnable = active_mask &
!blocked_mask` — the lock by task 1 blocked the idle task (the lock's
block mask `!(1 << 1) & 0b11 = 0b01` is exactly bit 0).  One further legal
step (task 1 exits while holding the lock) reaches `cex5`, where
`runnable` is zero outright. -/
theorem runnable_bit0_counterexample :
    Reachable cex4 ∧ Nat.testBit (Nat.ldiff cex4.1.ATV cex4.1.BTV) 0 = false ∧
      Reachable cex5 ∧ Nat.ldiff cex5.1.ATV cex5.1.BTV = 0 := by
  have h4 : Reachable cex4 :=
    Reachable.step _ _ (Reachable.step _ _ (Reachable.step _ _ (Reachable.step _ _
      (Reachable.boot false) (Step.create _ _ 1 ⟨0⟩ (by decide)))
      (Step.start _ _)) (Step.releaseStep _ _ 2)) (Step.lockStep _ _ rCex)
  exact ⟨h4, by rw [← and_not_eq_ldiff]; decide,
    Reachable.step _ _ h4 (Step.exitStep _ _ (by decide)),
    by rw [← and_not_eq_ldiff]; decide⟩
